import Mathlib

/-!
Verification of the investigation-loop agent in `src/agent/main.py`
(repository `iwanhae/kabinet`).

The development shallowly embeds the parts of the program the verified
properties talk about:

* a JSON value model mirroring Python's `json` module (`json.loads` /
  `json.dumps` with default options) for the fragment the program exchanges;
* the data model (`InvestigationState`, plans, query results);
* the query executor `execute_query` with its `requests` error handling;
* the result summarizer `summarize_result`;
* the turn loop of `main` as a function of an oracle (the plan stream) and
  the query service.

External collaborators (the LLM endpoint and the event query service) are
inputs of the embedded functions, matching the spec's view of them as pure
collaborators.
-/

set_option maxRecDepth 8000

namespace Kabinet

/-- Left brace character, kept as a named constant. -/
def lbrace : Char := Char.ofNat 123

/-- Right brace character, kept as a named constant. -/
def rbrace : Char := Char.ofNat 125

/-- JSON values as handled by Python's `json` module in this program's
exchanges: insertion-ordered objects with unique keys, arrays, strings,
integers, booleans and null.  Floating-point numbers never occur in the
modelled exchanges and are outside the embedded fragment. -/
inductive Json where
  | null : Json
  | bool : Bool → Json
  | num : Int → Json
  | str : String → Json
  | arr : List Json → Json
  | obj : List (String × Json) → Json

/-- Hexadecimal digit rendering (lowercase), as used by Python's
`json.dumps` for the `\u` escapes it emits under `ensure_ascii=True`. -/
def hexDigitChar (n : Nat) : Char :=
  if n < 10 then Char.ofNat (48 + n) else Char.ofNat (87 + n)

/-- Four-digit lowercase hexadecimal rendering of a code point. -/
def hex4 (n : Nat) : String :=
  String.mk [hexDigitChar (n / 4096 % 16), hexDigitChar (n / 256 % 16),
    hexDigitChar (n / 16 % 16), hexDigitChar (n % 16)]

/-- Escaping of one character inside a JSON string, following Python
`json.dumps` with its defaults (`ensure_ascii=True`): the two mandatory
escapes, the short control escapes, and `\u` escapes for the remaining
control characters and all non-ASCII characters (fragment: code points in
the Basic Multilingual Plane). -/
def escapeChar (c : Char) : String :=
  if c = '"' then "\\\""
  else if c = '\\' then "\\\\"
  else if c = '\n' then "\\n"
  else if c = '\t' then "\\t"
  else if c = '\r' then "\\r"
  else if c = Char.ofNat 8 then "\\b"
  else if c = Char.ofNat 12 then "\\f"
  else if c.toNat < 32 || 126 < c.toNat then "\\u" ++ hex4 c.toNat
  else String.singleton c

/-- Serialization of a JSON string literal, quotes included. -/
def dumpStr (s : String) : String :=
  "\"" ++ String.join (s.toList.map escapeChar) ++ "\""

mutual

/-- Serialization mirroring Python `json.dumps` with its default options:
item separator `", "`, key separator `": "`, `ensure_ascii=True`.  These
defaults are what `add_ai_response` (main.py line 177) and
`summarize_result` (main.py line 239) rely on. -/
def json_dumps : Json → String
  | Json.null => "null"
  | Json.bool true => "true"
  | Json.bool false => "false"
  | Json.num n => toString n
  | Json.str s => dumpStr s
  | Json.arr xs => "[" ++ String.intercalate ", " (dumpsList xs) ++ "]"
  | Json.obj fs =>
      String.singleton lbrace ++ String.intercalate ", " (dumpsMembers fs) ++
        String.singleton rbrace

/-- Serializations of the elements of a JSON array, in order. -/
def dumpsList : List Json → List String
  | [] => []
  | x :: xs => json_dumps x :: dumpsList xs

/-- Serializations of the members of a JSON object, in order. -/
def dumpsMembers : List (String × Json) → List String
  | [] => []
  | (k, v) :: fs => (dumpStr k ++ ": " ++ json_dumps v) :: dumpsMembers fs

end

/-- JSON whitespace, as accepted between tokens by Python `json.loads`. -/
def jsonWs (c : Char) : Bool :=
  c = ' ' || c = '\t' || c = '\n' || c = '\r'

/-- Drop leading JSON whitespace. -/
def skipWs : List Char → List Char
  | c :: cs => if jsonWs c then skipWs cs else c :: cs
  | [] => []

/-- Consume an expected literal character sequence. -/
def eatChars : List Char → List Char → Option (List Char)
  | [], rest => some rest
  | p :: ps, c :: cs => if c = p then eatChars ps cs else none
  | _ :: _, [] => none

/-- ASCII decimal digit test. -/
def isDigitChar (c : Char) : Bool :=
  48 ≤ c.toNat && c.toNat ≤ 57

/-- Split off the longest leading run of decimal digits. -/
def takeDigits : List Char → List Char × List Char
  | c :: cs =>
      if isDigitChar c then
        let r := takeDigits cs
        (c :: r.1, r.2)
      else ([], c :: cs)
  | [] => ([], [])

/-- Numeric value of a digit run. -/
def digitsToNat (ds : List Char) : Nat :=
  ds.foldl (fun acc c => acc * 10 + (c.toNat - 48)) 0

/-- Parse an unsigned JSON integer token with Python's grammar:
`0` or a nonzero digit followed by digits (a leading zero may not be
followed by further digits). -/
def parseUIntToken : List Char → Option (Nat × List Char)
  | '0' :: rest =>
      (match rest with
       | c :: _ => if isDigitChar c then none else some (0, rest)
       | [] => some (0, []))
  | c :: rest =>
      if isDigitChar c then
        let r := takeDigits rest
        some (digitsToNat (c :: r.1), r.2)
      else none
  | [] => none

/-- Parse a signed JSON integer token (fragment: no fractions or
exponents, which do not occur in the modelled exchanges). -/
def parseIntToken (input : List Char) : Option (Int × List Char) :=
  match input with
  | '-' :: rest => (parseUIntToken rest).map (fun p => (-(p.1 : Int), p.2))
  | _ => (parseUIntToken input).map (fun p => ((p.1 : Int), p.2))

/-- Decode a one-character JSON string escape. -/
def escDecode (c : Char) : Option Char :=
  if c = '"' then some '"'
  else if c = '\\' then some '\\'
  else if c = '/' then some '/'
  else if c = 'b' then some (Char.ofNat 8)
  else if c = 'f' then some (Char.ofNat 12)
  else if c = 'n' then some '\n'
  else if c = 'r' then some '\r'
  else if c = 't' then some '\t'
  else none

/-- Value of a hexadecimal digit character. -/
def hexVal (c : Char) : Option Nat :=
  if isDigitChar c then some (c.toNat - 48)
  else if 97 ≤ c.toNat && c.toNat ≤ 102 then some (c.toNat - 87)
  else if 65 ≤ c.toNat && c.toNat ≤ 70 then some (c.toNat - 55)
  else none

/-- Parse the body of a JSON string (opening quote already consumed) in
Python's strict mode: raw control characters are rejected, escapes are
decoded, `\u` takes four hex digits (fragment: no surrogate pairing).
The fuel bounds recursion and exceeds the input length at every use. -/
def parseStrBody : Nat → List Char → Option (List Char × List Char)
  | 0, _ => none
  | _ + 1, [] => none
  | fuel + 1, c :: cs =>
      if c = '"' then some ([], cs)
      else if c = '\\' then
        match cs with
        | [] => none
        | e :: cs' =>
            if e = 'u' then
              match cs' with
              | h1 :: h2 :: h3 :: h4 :: cs'' =>
                  (match hexVal h1, hexVal h2, hexVal h3, hexVal h4 with
                   | some a, some b, some x, some y =>
                       (parseStrBody fuel cs'').map
                         (fun p => (Char.ofNat (a * 4096 + b * 256 + x * 16 + y) :: p.1, p.2))
                   | _, _, _, _ => none)
              | _ => none
            else
              match escDecode e with
              | some d => (parseStrBody fuel cs').map (fun p => (d :: p.1, p.2))
              | none => none
      else if c.toNat < 32 then none
      else (parseStrBody fuel cs).map (fun p => (c :: p.1, p.2))

/-- Python dict insertion semantics: writing an existing key overwrites its
value in place (the key keeps its original position); a new key is
appended at the end. -/
def dictInsert (fs : List (String × Json)) (k : String) (v : Json) :
    List (String × Json) :=
  if fs.any (fun kv => kv.1 == k) then
    fs.map (fun kv => if kv.1 == k then (k, v) else kv)
  else fs ++ [(k, v)]

/-- Assemble a JSON object from its members in textual order with Python
dict semantics (on duplicate keys the last value wins). -/
def mkDict (pairs : List (String × Json)) : List (String × Json) :=
  pairs.foldl (fun acc kv => dictInsert acc kv.1 kv.2) []

mutual

/-- Recursive-descent JSON value parser mirroring Python `json.loads` on
the embedded fragment (no floats, BMP strings).  The fuel argument only
bounds recursion depth; `json_loads` supplies more than enough of it. -/
def parseValue : Nat → List Char → Option (Json × List Char)
  | 0, _ => none
  | fuel + 1, input =>
      match skipWs input with
      | [] => none
      | c :: cs =>
          if c = 'n' then (eatChars ['u', 'l', 'l'] cs).map (fun r => (Json.null, r))
          else if c = 't' then (eatChars ['r', 'u', 'e'] cs).map (fun r => (Json.bool true, r))
          else if c = 'f' then (eatChars ['a', 'l', 's', 'e'] cs).map (fun r => (Json.bool false, r))
          else if c = '"' then
            (parseStrBody (fuel + 1) cs).map (fun p => (Json.str (String.mk p.1), p.2))
          else if c = '[' then
            (match skipWs cs with
             | ']' :: rest => some (Json.arr [], rest)
             | rest => (parseElems fuel rest).map (fun p => (Json.arr p.1, p.2)))
          else if c = lbrace then
            (match skipWs cs with
             | d :: rest =>
                 if d = rbrace then some (Json.obj [], rest)
                 else (parseMembers fuel (d :: rest)).map (fun p => (Json.obj (mkDict p.1), p.2))
             | [] => none)
          else if c = '-' || isDigitChar c then
            (parseIntToken (c :: cs)).map (fun p => (Json.num p.1, p.2))
          else none

/-- Parse the comma-separated elements of a nonempty JSON array, up to and
including the closing bracket. -/
def parseElems : Nat → List Char → Option (List Json × List Char)
  | 0, _ => none
  | fuel + 1, input =>
      match parseValue fuel input with
      | none => none
      | some (v, rest) =>
          match skipWs rest with
          | ',' :: rest' =>
              (match parseElems fuel rest' with
               | some (vs, rest'') => some (v :: vs, rest'')
               | none => none)
          | ']' :: rest' => some ([v], rest')
          | _ => none

/-- Parse the comma-separated members of a nonempty JSON object, up to and
including the closing brace; members are returned in textual order. -/
def parseMembers : Nat → List Char → Option (List (String × Json) × List Char)
  | 0, _ => none
  | fuel + 1, input =>
      match skipWs input with
      | '"' :: cs =>
          (match parseStrBody (fuel + 1) cs with
           | none => none
           | some (kcs, rest) =>
               match skipWs rest with
               | ':' :: rest' =>
                   (match parseValue fuel rest' with
                    | none => none
                    | some (v, rest'') =>
                        match skipWs rest'' with
                        | d :: rest3 =>
                            if d = ',' then
                              (match parseMembers fuel rest3 with
                               | some (fs, rest4) => some ((String.mk kcs, v) :: fs, rest4)
                               | none => none)
                            else if d = rbrace then some ([(String.mk kcs, v)], rest3)
                            else none
                        | [] => none)
               | _ => none)
      | _ => none

end

/-- Model of Python `json.loads`: parse one JSON document and require that
only whitespace follows it. -/
def json_loads (s : String) : Option Json :=
  match parseValue (2 * s.length + 2) s.toList with
  | some (v, rest) => if (skipWs rest).isEmpty then some v else none
  | none => none

/-! ## Data model (main.py lines 163-199) -/

/-- One role-tagged transcript entry, mirroring the
`{"role": ..., "content": ...}` dictionaries of `InvestigationState.messages`. -/
structure Message where
  role : String
  content : String
deriving DecidableEq, Repr

/-- The LLM instruction preamble from main.py lines 22-161.  Its full text
is free-form guidance to the oracle; no verified property depends on its
content, so the embedding keeps it as a fixed string constant holding the
opening line of the prompt. -/
def SYSTEM_PROMPT : String :=
  "\nYou are a proactive and autonomous expert AI assistant for troubleshooting Kubernetes cluster events.\n[full prompt text elided]\n"

/-- `InvestigationState` (main.py lines 163-184): the evolving transcript,
turn counter and hypothesis for one user request. -/
structure InvestigationState where
  user_request : String
  max_turns : Nat := 7
  turn : Nat := 0
  hypothesis : String := "Initial hypothesis pending."
  messages : List Message := []
deriving DecidableEq, Repr

/-- State construction including `__post_init__` (main.py lines 172-174):
the transcript is seeded with the system prompt and the user's statement. -/
def initState (user_request : String) : InvestigationState :=
  { user_request := user_request
    messages := [⟨"system", SYSTEM_PROMPT⟩, ⟨"user", user_request⟩] }

/-- The `query` sub-object of a plan, with every field optional so that
malformed shapes (missing `sql`, missing bounds) are representable.
The Python `end` key is spelled `end_` because `end` is reserved in Lean. -/
structure QueryInfo where
  sql : Option String := none
  start : Option String := none
  end_ : Option String := none
deriving DecidableEq, Repr

/-- The oracle's parsed plan restricted to the keys `main` consults
(main.py lines 264-281).  A `none` field models an absent key; present
keys are modelled with the value types the program's contract gives them. -/
structure Plan where
  thought : Option String := none
  hypothesis : Option String := none
  query : Option QueryInfo := none
  final_analysis : Option String := none
deriving DecidableEq, Repr

/-- JSON rendering of a plan's `query` object (present fields only, in the
schema's order), used to serialize the assistant message. -/
def queryInfoToJson (q : QueryInfo) : Json :=
  Json.obj
    ((match q.sql with | some s => [("sql", Json.str s)] | none => []) ++
     (match q.start with | some b => [("start", Json.str b)] | none => []) ++
     (match q.end_ with | some e => [("end", Json.str e)] | none => []))

/-- JSON rendering of a plan (present fields only).  The real dict's key
order is whatever the oracle emitted; the embedding fixes the schema order
of the system prompt.  No verified property depends on this rendering. -/
def planToJson (p : Plan) : Json :=
  Json.obj
    ((match p.thought with | some t => [("thought", Json.str t)] | none => []) ++
     (match p.hypothesis with | some h => [("hypothesis", Json.str h)] | none => []) ++
     (match p.query with | some q => [("query", queryInfoToJson q)] | none => []) ++
     (match p.final_analysis with | some f => [("final_analysis", Json.str f)] | none => []))

/-- `InvestigationState.add_ai_response` (main.py lines 176-177): append the
`json.dumps` serialization of the plan as an assistant message. -/
def add_ai_response (st : InvestigationState) (response : Plan) : InvestigationState :=
  { st with messages := st.messages ++ [⟨"assistant", json_dumps (planToJson response)⟩] }

/-- `InvestigationState.add_system_observation` (main.py lines 179-181):
append an observation as a system message (the print is I/O only). -/
def add_system_observation (st : InvestigationState) (content : String) : InvestigationState :=
  { st with messages := st.messages ++ [⟨"system", content⟩] }

/-- `InvestigationState.is_complete` (main.py lines 183-184). -/
def InvestigationState.is_complete (st : InvestigationState) : Bool :=
  st.turn ≥ st.max_turns

/-! ## Query results and the summarizer (main.py lines 225-241) -/

/-- One result row: an insertion-ordered mapping from column name to JSON
value, as delivered inside the service's `results` array. -/
def Row : Type := List (String × Json)

/-- The dictionary `execute_query` returns, restricted to the keys
`summarize_result` consults: an optional `error` string, an optional
`results` row list (absent key modelled as `none`), and the `content`
field set by the invalid-JSON branch. -/
structure QueryResult where
  error : Option String := none
  results : Option (List Row) := none
  content : Option String := none

/-- `summarize_result` (main.py lines 225-241): error results render the
error, an absent or empty `results` list renders the fixed sentinel, and a
nonempty list renders the row count, the first row's column names and the
`json.dumps` of the first row. -/
def summarize_result (result : QueryResult) : String :=
  match result.error with
  | some err => "Query failed with error: " ++ err
  | none =>
      match result.results.getD [] with
      | [] => "Query returned no results (an empty list: [])."
      | first :: restRows =>
          let count := (first :: restRows).length
          let columns := first.map Prod.fst
          "Query returned " ++ toString count ++ " rows. Columns: " ++
            String.intercalate ", " columns ++ ". " ++
            "First row summary: " ++ json_dumps (Json.obj first)

/-! ## The query executor (main.py lines 186-199) -/

/-- An HTTP response as seen by the `requests` library: a status code and
a body text. -/
structure HttpResponse where
  status : Nat
  body : String
deriving DecidableEq, Repr

/-- Outcome of the `requests.post` call in `execute_query`: either an HTTP
exchange that completed with some status, or a transport-level
`RequestException` carrying no response (`e.response is None`). -/
inductive PostOutcome where
  | resp : HttpResponse → PostOutcome
  | exc : String → PostOutcome

/-- Truthiness of a `requests.Response`: `Response.__bool__` returns
`Response.ok`, which is true exactly for status codes below 400.  This is
what the expression `e.response.text if e.response else str(e)` in
main.py line 196 actually tests. -/
def responseTruthy (r : HttpResponse) : Bool :=
  r.status < 400

/-- The `str()` rendering of the `requests.HTTPError` raised by
`raise_for_status`.  The library's exact message also names the reason
phrase and URL; only its difference from the body text matters here. -/
def httpErrorStr (r : HttpResponse) : String :=
  "HTTP error status " ++ toString r.status

/-- Helper looking up a key in parsed JSON object members. -/
def lookupField (fs : List (String × Json)) (k : String) : Option Json :=
  (fs.find? (fun kv => kv.1 == k)).map Prod.snd

/-- View of a parsed JSON response body as the `QueryResult` dictionary
shape the rest of the program consults.  The source returns the parsed
dict itself; this coercion types it.  Fragment: `error`, when present, is
a string; `results`, when present, is an array of row objects (as the
event query service's interface specifies). -/
def jsonToQueryResult (j : Json) : QueryResult :=
  match j with
  | Json.obj fs =>
      { error := (match lookupField fs "error" with
                  | some (Json.str e) => some e
                  | _ => none)
        results := (match lookupField fs "results" with
                    | some (Json.arr rows) =>
                        some (rows.map (fun r => match r with
                          | Json.obj kvs => (kvs : Row)
                          | _ => ([] : Row)))
                    | _ => none) }
  | _ => {}

/-- `execute_query` (main.py lines 186-199) as a function of the network
outcome.  A completed exchange with an error status makes
`raise_for_status` raise an `HTTPError` `e` with `e.response` attached;
the handler computes `e.response.text if e.response else str(e)`, where
the condition is the response's truthiness (`responseTruthy`).  A
transport failure reaches the same handler with `e.response = None`.  A
2xx response has its body parsed; an unparseable body takes the
`JSONDecodeError` branch. -/
def execute_query (outcome : PostOutcome) : QueryResult :=
  match outcome with
  | PostOutcome.exc msg => { error := some ("API call failed: " ++ msg) }
  | PostOutcome.resp r =>
      if 400 ≤ r.status then
        let error_text := if responseTruthy r then r.body else httpErrorStr r
        { error := some ("API call failed: " ++ error_text) }
      else
        match json_loads r.body with
        | some j => jsonToQueryResult j
        | none => { error := some "API response is not valid JSON.", content := some r.body }

/-! ## Plan decoding and transcript serialization (main.py lines 201-222) -/

/-- The decoding step of `get_ai_plan` (main.py lines 217-222): the raw
structured-text response is parsed with `json.loads`; a non-parseable
payload is replaced by the hard-failure plan whose `final_analysis`
reports the defect. -/
def get_ai_plan_value (raw : String) : Json :=
  (json_loads raw).getD
    (Json.obj [("final_analysis",
      Json.str "Error: The AI returned a response that was not valid JSON.")])

/-- What `add_ai_response` stores for an oracle raw response: the
`json.dumps` serialization of the decoded plan object
(main.py line 177 composed with lines 217-222). -/
def stored_assistant_content (raw : String) : String :=
  json_dumps (get_ai_plan_value raw)

/-! ## The turn loop (main.py lines 255-292)

The inner `while not state.is_complete()` loop of `main` for one user
request.  The oracle is an external collaborator; following the spec's
phrasing of the loop's properties ("for any sequence of plans ..."), it is
embedded as the stream of plans it returns, indexed by call number.  The
query service is the abstract function `(sql, start, end) -> QueryResult`
whose request/response mapping `execute_query` refines above.

The `while` loop is driven by the strictly decreasing quantity
`max_turns - turn` (`gas` below): the loop test `turn >= max_turns` holds
exactly when `gas = 0`, and each iteration increments `turn` by one while
`max_turns` stays fixed, so `gas` decreases by one per iteration. -/

/-- How one investigation ended: a concluding plan inside the loop, the
"no further action taken" abort, the forced summarization after turn
exhaustion, or the uncaught `KeyError` raised when a dispatched query
omits `start` or `end` (main.py lines 278-282 index those keys directly). -/
inductive OutcomeKind where
  | concluded : OutcomeKind
  | aborted : OutcomeKind
  | forcedSummary : OutcomeKind
  | keyError : OutcomeKind
deriving DecidableEq, Repr

/-- Observable result of one investigation: how it ended, the final text
surfaced to the user, the number of query executions, the total number of
oracle calls, the `(sql, start, end)` triples dispatched to the query
service in order, and the final state. -/
structure RunResult where
  kind : OutcomeKind
  output : String
  queries : Nat
  oracleCalls : Nat
  dispatched : List (String × String × String)
  finalState : InvestigationState

/-- The per-iteration bookkeeping of main.py lines 258-266: increment the
turn, record the plan as an assistant message and overwrite the hypothesis
when the plan supplies one. -/
def record_plan (st : InvestigationState) (ai_plan : Plan) : InvestigationState :=
  let st1 : InvestigationState := { st with turn := st.turn + 1 }
  let st2 := add_ai_response st1 ai_plan
  { st2 with hypothesis := ai_plan.hypothesis.getD st2.hypothesis }

/-- The abort branch of main.py lines 273-276: the defect observation is
appended and the loop stops, surfacing "No further action taken.". -/
def abort_result (calls queries : Nat) (disp : List (String × String × String))
    (st : InvestigationState) : RunResult :=
  { kind := OutcomeKind.aborted
    output := "No further action taken."
    queries := queries
    oracleCalls := calls + 1
    dispatched := disp
    finalState := add_system_observation st "AI did not provide a valid query. Ending investigation." }

/-- The investigation loop of `main` (main.py lines 257-292), driven by
`gas = max_turns - turn`.  `gas = 0` is the loop test failing: the
`while`-`else` branch appends the forced-summarization observation, makes
one more oracle call without a turn increment and surfaces its
`final_analysis` (or the default).  Otherwise one iteration runs: the plan
is fetched and recorded; a plan with `final_analysis` concludes; a plan
without a truthy `query.sql` aborts; otherwise `start` and `end` are
indexed (raising `KeyError` when absent), the query is dispatched, and the
summarized result is appended as an observation before looping. -/
def mainLoop (oracle : Nat → Plan) (svc : String → String → String → QueryResult) :
    Nat → Nat → Nat → List (String × String × String) → InvestigationState → RunResult
  | 0, calls, queries, disp, st =>
      let st1 := add_system_observation st
        "You have reached the maximum number of turns. Please summarize your findings and provide a final analysis."
      { kind := OutcomeKind.forcedSummary
        output := ((oracle calls).final_analysis).getD "No summary provided."
        queries := queries
        oracleCalls := calls + 1
        dispatched := disp
        finalState := st1 }
  | gas + 1, calls, queries, disp, st =>
      let ai_plan := oracle calls
      let st3 := record_plan st ai_plan
      match ai_plan.final_analysis with
      | some fa =>
          { kind := OutcomeKind.concluded
            output := fa
            queries := queries
            oracleCalls := calls + 1
            dispatched := disp
            finalState := st3 }
      | none =>
          match ai_plan.query with
          | none => abort_result calls queries disp st3
          | some query_info =>
              match query_info.sql with
              | none => abort_result calls queries disp st3
              | some s =>
                  if s = "" then abort_result calls queries disp st3
                  else
                    match query_info.start with
                    | none =>
                        { kind := OutcomeKind.keyError
                          output := "KeyError: start"
                          queries := queries
                          oracleCalls := calls + 1
                          dispatched := disp
                          finalState := st3 }
                    | some b =>
                        match query_info.end_ with
                        | none =>
                            { kind := OutcomeKind.keyError
                              output := "KeyError: end"
                              queries := queries
                              oracleCalls := calls + 1
                              dispatched := disp
                              finalState := st3 }
                        | some e =>
                            let query_result := svc s b e
                            let result_summary := summarize_result query_result
                            let st4 := add_system_observation st3
                              ("Query executed. Here is a summary of the result:\n" ++ result_summary)
                            mainLoop oracle svc gas (calls + 1) (queries + 1)
                              (disp ++ [(s, b, e)]) st4

/-- The loop entered at an arbitrary state: the gas is the remaining turn
budget `max_turns - turn`, so the `gas = 0` branch of `mainLoop` runs
exactly when `state.is_complete()` holds. -/
def runLoop (oracle : Nat → Plan) (svc : String → String → String → QueryResult)
    (calls queries : Nat) (disp : List (String × String × String))
    (st : InvestigationState) : RunResult :=
  mainLoop oracle svc (st.max_turns - st.turn) calls queries disp st

/-- One full investigation for one line of user input, as `main` performs
it: a fresh seeded state, then the turn loop from turn 0. -/
def investigate (oracle : Nat → Plan) (svc : String → String → String → QueryResult)
    (user_input : String) : RunResult :=
  runLoop oracle svc 0 0 [] (initState user_input)

/-- Decidable form of "continuation plan with a valid query": no
`final_analysis`, and a `query` whose `sql` is a nonempty string and whose
`start` and `end` are both present (the plan contract of spec section 3). -/
def validContB (p : Plan) : Bool :=
  match p.final_analysis, p.query with
  | none, some q =>
      (match q.sql, q.start, q.end_ with
       | some s, some _, some _ => !(s == "")
       | _, _, _ => false)
  | _, _ => false

/-- Decidable form of "the plan carries a truthy `sql`": exactly the
condition `query_info and query_info.get("sql")` of main.py line 273. -/
def validSqlB (p : Plan) : Bool :=
  match p.query with
  | some q =>
      (match q.sql with
       | some s => !(s == "")
       | none => false)
  | none => false

/-- Strict lexicographic order on code points, spelled out so concrete
comparisons evaluate by `rfl`.  On equal-length ISO-8601 UTC timestamps it
coincides with chronological order. -/
def charListLt : List Char → List Char → Bool
  | [], [] => false
  | [], _ :: _ => true
  | _ :: _, [] => false
  | a :: as, b :: bs =>
      if a.toNat < b.toNat then true
      else if b.toNat < a.toNat then false
      else charListLt as bs

/-- Chronological comparison of two ISO-8601 UTC timestamp strings. -/
def isoLt (a b : String) : Bool :=
  charListLt a.toList b.toList

/-! ## Concrete fixtures for witnesses and counterexamples -/

/-- Query service returning an empty result set on every query. -/
def svcEmpty : String → String → String → QueryResult :=
  fun _ _ _ => { results := some [] }

/-- A well-formed continuation plan. -/
def contPlanW : Plan :=
  { thought := some "Check which warning reason dominates."
    hypothesis := some "A single warning reason dominates the event stream."
    query := some
      { sql := some "SELECT reason, COUNT(*) as count FROM $events GROUP BY reason"
        start := some "2025-08-03T06:00:00Z"
        end_ := some "2025-08-03T18:00:00Z" } }

/-- A well-formed concluding plan. -/
def concludePlanW : Plan :=
  { thought := some "The investigation is complete."
    hypothesis := some "FailedMount events dominate."
    final_analysis := some "FailedMount events dominate; inspect the affected node." }

/-- Oracle returning one continuation plan, then concluding. -/
def oracleOnceW : Nat → Plan :=
  fun i => if i = 0 then contPlanW else concludePlanW

/-- Oracle returning, on every call, a plan missing both `query` and
`final_analysis`. -/
def oracleEmptyPlan : Nat → Plan :=
  fun _ => {}

/-- Oracle returning, on every call, a plan carrying both a valid `query`
and a `final_analysis`. -/
def oracleBothW : Nat → Plan :=
  fun _ =>
    { hypothesis := some "h"
      query := some
        { sql := some "SELECT count(*) FROM $events"
          start := some "2025-08-03T06:00:00Z"
          end_ := some "2025-08-03T18:00:00Z" }
      final_analysis := some "Concluded although a query was also supplied." }

/-- Continuation plan whose time range is out of order
(`start` is chronologically after `end`). -/
def outOfOrderPlanW : Plan :=
  { hypothesis := some "h"
    query := some
      { sql := some "SELECT reason FROM $events"
        start := some "2025-08-05T15:00:00Z"
        end_ := some "2025-08-05T03:00:00Z" } }

/-- Oracle returning the out-of-order-range plan, then concluding. -/
def oracleOutOfOrderW : Nat → Plan :=
  fun i => if i = 0 then outOfOrderPlanW else concludePlanW

/-- Oracle returning, on every call, a plan whose query omits `start`. -/
def oracleNoStartW : Nat → Plan :=
  fun _ => { query := some { sql := some "SELECT reason FROM $events", end_ := some "2025-08-05T15:00:00Z" } }

/-- A state whose turn budget is exhausted (turn equals `max_turns`). -/
def stExhaustedW : InvestigationState :=
  { initState "the cluster is unstable" with turn := 7 }

/-- A raw oracle response that parses but is not in `json.dumps`
canonical form (no space after the colon). -/
def rawC9 : String :=
  "\x7b\"final_analysis\":\"ok\"\x7d"

/-! ## Theorems -/

/-- C3: for every plan that has neither `final_analysis` nor a query
object with a non-empty `sql`, the loop transitions to ABORT: it surfaces
"No further action taken.", executes no query (the query count is not
incremented), appends the defect observation, and stops without consuming
further turns (exactly the one turn already started, and no further oracle
calls). -/
theorem c3_malformed_plan_aborts (oracle : Nat → Plan)
    (svc : String → String → String → QueryResult) (gas calls queries : Nat)
    (disp : List (String × String × String)) (st : InvestigationState)
    (hfa : (oracle calls).final_analysis = none)
    (hq : validSqlB (oracle calls) = false) :
    (mainLoop oracle svc (gas + 1) calls queries disp st).kind = OutcomeKind.aborted ∧
    (mainLoop oracle svc (gas + 1) calls queries disp st).queries = queries ∧
    (mainLoop oracle svc (gas + 1) calls queries disp st).output = "No further action taken." ∧
    (mainLoop oracle svc (gas + 1) calls queries disp st).oracleCalls = calls + 1 ∧
    (mainLoop oracle svc (gas + 1) calls queries disp st).dispatched = disp ∧
    (mainLoop oracle svc (gas + 1) calls queries disp st).finalState.turn = st.turn + 1 ∧
    (mainLoop oracle svc (gas + 1) calls queries disp st).finalState.messages =
      (record_plan st (oracle calls)).messages ++
        [⟨"system", "AI did not provide a valid query. Ending investigation."⟩] := by
  unfold validSqlB at hq
  cases hqq : (oracle calls).query with
  | none =>
      simp [mainLoop, hfa, hqq, abort_result, add_system_observation, record_plan,
        add_ai_response]
  | some q =>
      simp only [hqq] at hq
      cases hsql : q.sql with
      | none =>
          simp [mainLoop, hfa, hqq, hsql, abort_result, add_system_observation,
            record_plan, add_ai_response]
      | some s =>
          simp only [hsql] at hq
          simp at hq
          simp [mainLoop, hfa, hqq, hsql, hq, abort_result, add_system_observation,
            record_plan, add_ai_response]

/-- Witness for C3 at a concrete input: the empty plan aborts the
investigation at the first iteration. -/
theorem c3_witness :
    (mainLoop oracleEmptyPlan svcEmpty (6 + 1) 0 0 [] (initState "p")).kind = OutcomeKind.aborted ∧
    (mainLoop oracleEmptyPlan svcEmpty (6 + 1) 0 0 [] (initState "p")).queries = 0 ∧
    (mainLoop oracleEmptyPlan svcEmpty (6 + 1) 0 0 [] (initState "p")).output =
      "No further action taken." ∧
    (mainLoop oracleEmptyPlan svcEmpty (6 + 1) 0 0 [] (initState "p")).oracleCalls = 0 + 1 ∧
    (mainLoop oracleEmptyPlan svcEmpty (6 + 1) 0 0 [] (initState "p")).dispatched = [] ∧
    (mainLoop oracleEmptyPlan svcEmpty (6 + 1) 0 0 [] (initState "p")).finalState.turn =
      (initState "p").turn + 1 ∧
    (mainLoop oracleEmptyPlan svcEmpty (6 + 1) 0 0 [] (initState "p")).finalState.messages =
      (record_plan (initState "p") (oracleEmptyPlan 0)).messages ++
        [⟨"system", "AI did not provide a valid query. Ending investigation."⟩] :=
  c3_malformed_plan_aborts oracleEmptyPlan svcEmpty 6 0 0 [] (initState "p") rfl rfl

/-- C10: for every plan in which both `final_analysis` and `query` are
present, the loop concludes with the `final_analysis` and executes no
query: `final_analysis` takes priority over `query`. -/
theorem c10_final_analysis_priority (oracle : Nat → Plan)
    (svc : String → String → String → QueryResult) (gas calls queries : Nat)
    (disp : List (String × String × String)) (st : InvestigationState)
    (q : QueryInfo) (fa : String)
    (hfa : (oracle calls).final_analysis = some fa)
    (_hq : (oracle calls).query = some q) :
    (mainLoop oracle svc (gas + 1) calls queries disp st).kind = OutcomeKind.concluded ∧
    (mainLoop oracle svc (gas + 1) calls queries disp st).output = fa ∧
    (mainLoop oracle svc (gas + 1) calls queries disp st).queries = queries ∧
    (mainLoop oracle svc (gas + 1) calls queries disp st).dispatched = disp := by
  simp [mainLoop, hfa]

/-- Witness for C10 at a concrete input: a plan carrying both fields
concludes without dispatching its query. -/
theorem c10_witness :
    (mainLoop oracleBothW svcEmpty (6 + 1) 0 0 [] (initState "p")).kind = OutcomeKind.concluded ∧
    (mainLoop oracleBothW svcEmpty (6 + 1) 0 0 [] (initState "p")).output =
      "Concluded although a query was also supplied." ∧
    (mainLoop oracleBothW svcEmpty (6 + 1) 0 0 [] (initState "p")).queries = 0 ∧
    (mainLoop oracleBothW svcEmpty (6 + 1) 0 0 [] (initState "p")).dispatched = [] :=
  c10_final_analysis_priority oracleBothW svcEmpty 6 0 0 [] (initState "p")
    { sql := some "SELECT count(*) FROM $events"
      start := some "2025-08-03T06:00:00Z"
      end_ := some "2025-08-03T18:00:00Z" }
    "Concluded although a query was also supplied." rfl rfl

/-- C8: whenever the turn budget is exhausted (`is_complete`, i.e. `turn`
has reached `max_turns`) without a concluding plan, exactly one additional
forced oracle call is made, not subject to the turn increment, and what
reaches the user is that call's `final_analysis` — or the default
"No summary provided." string when it is absent — with no further looping
in either case (the result is terminal and the query count is final). -/
theorem c8_forced_summarization (oracle : Nat → Plan)
    (svc : String → String → String → QueryResult) (calls queries : Nat)
    (disp : List (String × String × String)) (st : InvestigationState)
    (h : st.is_complete = true) :
    (runLoop oracle svc calls queries disp st).kind = OutcomeKind.forcedSummary ∧
    (runLoop oracle svc calls queries disp st).oracleCalls = calls + 1 ∧
    (runLoop oracle svc calls queries disp st).queries = queries ∧
    (runLoop oracle svc calls queries disp st).output =
      ((oracle calls).final_analysis).getD "No summary provided." ∧
    (runLoop oracle svc calls queries disp st).finalState.turn = st.turn ∧
    (runLoop oracle svc calls queries disp st).finalState.messages =
      st.messages ++
        [⟨"system", "You have reached the maximum number of turns. Please summarize your findings and provide a final analysis."⟩] := by
  simp only [InvestigationState.is_complete, ge_iff_le, decide_eq_true_eq] at h
  have hgas : st.max_turns - st.turn = 0 := by omega
  simp [runLoop, hgas, mainLoop, add_system_observation]

/-- Witness for C8 at a concrete input: an exhausted state with an oracle
that still omits `final_analysis` surfaces the default string after one
forced call. -/
theorem c8_witness :
    (runLoop oracleEmptyPlan svcEmpty 7 3 [] stExhaustedW).kind = OutcomeKind.forcedSummary ∧
    (runLoop oracleEmptyPlan svcEmpty 7 3 [] stExhaustedW).oracleCalls = 7 + 1 ∧
    (runLoop oracleEmptyPlan svcEmpty 7 3 [] stExhaustedW).queries = 3 ∧
    (runLoop oracleEmptyPlan svcEmpty 7 3 [] stExhaustedW).output =
      ((oracleEmptyPlan 7).final_analysis).getD "No summary provided." ∧
    (runLoop oracleEmptyPlan svcEmpty 7 3 [] stExhaustedW).finalState.turn = stExhaustedW.turn ∧
    (runLoop oracleEmptyPlan svcEmpty 7 3 [] stExhaustedW).finalState.messages =
      stExhaustedW.messages ++
        [⟨"system", "You have reached the maximum number of turns. Please summarize your findings and provide a final analysis."⟩] :=
  c8_forced_summarization oracleEmptyPlan svcEmpty 7 3 [] stExhaustedW rfl

/-- C2 counterexample: a response parsing as an object with neither
`query` nor `final_analysis` does NOT keep the loop running.  At the
concrete input below the investigation ends at the first iteration in the
ABORT state after exactly one oracle call — the loop never calls the
oracle again, contradicting the claimed soft-failure continuation. -/
theorem c2_counterexample :
    (investigate oracleEmptyPlan svcEmpty "the cluster is unstable").kind =
      OutcomeKind.aborted ∧
    (investigate oracleEmptyPlan svcEmpty "the cluster is unstable").oracleCalls = 1 ∧
    (investigate oracleEmptyPlan svcEmpty "the cluster is unstable").finalState.turn = 1 ∧
    (investigate oracleEmptyPlan svcEmpty "the cluster is unstable").output =
      "No further action taken." :=
  ⟨rfl, rfl, rfl, rfl⟩

/-- C2 as amended: for every oracle response parsing as an object but
containing neither `query` nor `final_analysis`, the defect is reported
into the transcript as an observation and the turn that fetched it stays
consumed, but the investigation terminates immediately in the ABORT state
("No further action taken.") instead of continuing with another oracle
call. -/
theorem c2_amended_invalid_plan_terminates (oracle : Nat → Plan)
    (svc : String → String → String → QueryResult) (gas calls queries : Nat)
    (disp : List (String × String × String)) (st : InvestigationState)
    (hfa : (oracle calls).final_analysis = none)
    (hq : (oracle calls).query = none) :
    (mainLoop oracle svc (gas + 1) calls queries disp st).kind = OutcomeKind.aborted ∧
    (mainLoop oracle svc (gas + 1) calls queries disp st).oracleCalls = calls + 1 ∧
    (mainLoop oracle svc (gas + 1) calls queries disp st).finalState.turn = st.turn + 1 ∧
    (mainLoop oracle svc (gas + 1) calls queries disp st).output = "No further action taken." ∧
    (mainLoop oracle svc (gas + 1) calls queries disp st).finalState.messages =
      (record_plan st (oracle calls)).messages ++
        [⟨"system", "AI did not provide a valid query. Ending investigation."⟩] := by
  simp [mainLoop, hfa, hq, abort_result, add_system_observation, record_plan,
    add_ai_response]

/-- Witness for the amended C2 at a concrete input. -/
theorem c2_witness :
    (mainLoop oracleEmptyPlan svcEmpty (4 + 1) 2 1 [] (initState "p")).kind =
      OutcomeKind.aborted ∧
    (mainLoop oracleEmptyPlan svcEmpty (4 + 1) 2 1 [] (initState "p")).oracleCalls = 2 + 1 ∧
    (mainLoop oracleEmptyPlan svcEmpty (4 + 1) 2 1 [] (initState "p")).finalState.turn =
      (initState "p").turn + 1 ∧
    (mainLoop oracleEmptyPlan svcEmpty (4 + 1) 2 1 [] (initState "p")).output =
      "No further action taken." ∧
    (mainLoop oracleEmptyPlan svcEmpty (4 + 1) 2 1 [] (initState "p")).finalState.messages =
      (record_plan (initState "p") (oracleEmptyPlan 2)).messages ++
        [⟨"system", "AI did not provide a valid query. Ending investigation."⟩] :=
  c2_amended_invalid_plan_terminates oracleEmptyPlan svcEmpty 4 2 1 [] (initState "p") rfl rfl

/-- C5 counterexample: a plan whose range is out of order (its `start` is
chronologically after its `end`) is dispatched to the query service
unchanged — one query execution occurs and the out-of-order triple appears
in the dispatch log, instead of the claimed local rejection. -/
theorem c5_counterexample :
    isoLt "2025-08-05T03:00:00Z" "2025-08-05T15:00:00Z" = true ∧
    (investigate oracleOutOfOrderW svcEmpty "p").dispatched =
      [("SELECT reason FROM $events", "2025-08-05T15:00:00Z", "2025-08-05T03:00:00Z")] ∧
    (investigate oracleOutOfOrderW svcEmpty "p").queries = 1 ∧
    (investigate oracleOutOfOrderW svcEmpty "p").kind = OutcomeKind.concluded :=
  ⟨rfl, rfl, rfl, rfl⟩

/-- C5 as amended: no `start ≤ end` validation exists anywhere on the
dispatch path.  For every plan carrying a non-empty `sql` and any two
present bounds — in order or not — the loop dispatches the query to the
service as-is and continues; no comparison of the bounds is consulted. -/
theorem c5_no_range_validation (oracle : Nat → Plan)
    (svc : String → String → String → QueryResult) (gas calls queries : Nat)
    (disp : List (String × String × String)) (st : InvestigationState)
    (q : QueryInfo) (s b e : String)
    (hfa : (oracle calls).final_analysis = none)
    (hq : (oracle calls).query = some q)
    (hsql : q.sql = some s) (hs : s ≠ "")
    (hb : q.start = some b) (he : q.end_ = some e) :
    mainLoop oracle svc (gas + 1) calls queries disp st =
      mainLoop oracle svc gas (calls + 1) (queries + 1) (disp ++ [(s, b, e)])
        (add_system_observation (record_plan st (oracle calls))
          ("Query executed. Here is a summary of the result:\n" ++
            summarize_result (svc s b e))) := by
  simp [mainLoop, hfa, hq, hsql, hs, hb, he]

/-- Witness for the amended C5 at a concrete input with an out-of-order
range: the step dispatches the query. -/
theorem c5_witness :
    mainLoop oracleOutOfOrderW svcEmpty (6 + 1) 0 0 [] (initState "p") =
      mainLoop oracleOutOfOrderW svcEmpty 6 (0 + 1) (0 + 1)
        ([] ++ [("SELECT reason FROM $events", "2025-08-05T15:00:00Z", "2025-08-05T03:00:00Z")])
        (add_system_observation (record_plan (initState "p") (oracleOutOfOrderW 0))
          ("Query executed. Here is a summary of the result:\n" ++
            summarize_result
              (svcEmpty "SELECT reason FROM $events" "2025-08-05T15:00:00Z" "2025-08-05T03:00:00Z"))) :=
  c5_no_range_validation oracleOutOfOrderW svcEmpty 6 0 0 [] (initState "p")
    { sql := some "SELECT reason FROM $events"
      start := some "2025-08-05T15:00:00Z"
      end_ := some "2025-08-05T03:00:00Z" }
    "SELECT reason FROM $events" "2025-08-05T15:00:00Z" "2025-08-05T03:00:00Z"
    rfl rfl rfl (by decide) rfl rfl

/-- C6 counterexample: a call in which `start` is absent does not default
the range — at the concrete input below the investigation dies with an
uncaught `KeyError` and nothing is ever dispatched, so no defaulted query
exists. -/
theorem c6_counterexample :
    (investigate oracleNoStartW svcEmpty "p").kind = OutcomeKind.keyError ∧
    (investigate oracleNoStartW svcEmpty "p").output = "KeyError: start" ∧
    (investigate oracleNoStartW svcEmpty "p").dispatched = [] ∧
    (investigate oracleNoStartW svcEmpty "p").queries = 0 :=
  ⟨rfl, rfl, rfl, rfl⟩

/-- C6 as amended: no time-range defaulting exists.  `execute_query`
requires both bounds as arguments, and the loop indexes `start` and `end`
directly, so for every plan whose query carries a non-empty `sql` but
omits `start` or `end` the investigation raises an uncaught `KeyError`:
nothing is dispatched and no default is substituted — an omitted range
fails rather than being defaulted. -/
theorem c6_missing_bounds_key_error (oracle : Nat → Plan)
    (svc : String → String → String → QueryResult) (gas calls queries : Nat)
    (disp : List (String × String × String)) (st : InvestigationState)
    (q : QueryInfo) (s : String)
    (hfa : (oracle calls).final_analysis = none)
    (hq : (oracle calls).query = some q)
    (hsql : q.sql = some s) (hs : s ≠ "")
    (hmiss : q.start = none ∨ q.end_ = none) :
    (mainLoop oracle svc (gas + 1) calls queries disp st).kind = OutcomeKind.keyError ∧
    (mainLoop oracle svc (gas + 1) calls queries disp st).queries = queries ∧
    (mainLoop oracle svc (gas + 1) calls queries disp st).dispatched = disp ∧
    (mainLoop oracle svc (gas + 1) calls queries disp st).oracleCalls = calls + 1 := by
  cases hmiss with
  | inl hstart =>
      simp [mainLoop, hfa, hq, hsql, hs, hstart]
  | inr hend =>
      cases hstart : q.start with
      | none => simp [mainLoop, hfa, hq, hsql, hs, hstart]
      | some b => simp [mainLoop, hfa, hq, hsql, hs, hstart, hend]

/-- Witness for the amended C6 at a concrete input whose query omits
`start`. -/
theorem c6_witness :
    (mainLoop oracleNoStartW svcEmpty (6 + 1) 0 0 [] (initState "p")).kind =
      OutcomeKind.keyError ∧
    (mainLoop oracleNoStartW svcEmpty (6 + 1) 0 0 [] (initState "p")).queries = 0 ∧
    (mainLoop oracleNoStartW svcEmpty (6 + 1) 0 0 [] (initState "p")).dispatched = [] ∧
    (mainLoop oracleNoStartW svcEmpty (6 + 1) 0 0 [] (initState "p")).oracleCalls = 0 + 1 :=
  c6_missing_bounds_key_error oracleNoStartW svcEmpty 6 0 0 [] (initState "p")
    { sql := some "SELECT reason FROM $events", end_ := some "2025-08-05T15:00:00Z" }
    "SELECT reason FROM $events" rfl rfl rfl (by decide) (Or.inl rfl)

/-- C4 counterexample: on an error-free empty-row `QueryResult` the
summarizer does not return the claimed sentinel — its actual fixed string
carries an extra ": []" inside the parentheses. -/
theorem c4_counterexample :
    summarize_result { error := none, results := some [] } =
      "Query returned no results (an empty list: [])." ∧
    summarize_result { error := none, results := some [] } ≠
      "Query returned no results (an empty list)." :=
  ⟨rfl, by decide⟩

/-- C4 as amended: for every `QueryResult` whose row-set is empty or
absent (and which carries no error), `summarize_result` returns exactly
the fixed sentinel string "Query returned no results (an empty list: [])."
with no row or column enumeration. -/
theorem c4_empty_result_sentinel (result : QueryResult)
    (he : result.error = none) (hr : result.results.getD [] = []) :
    summarize_result result = "Query returned no results (an empty list: [])." := by
  unfold summarize_result
  rw [he, hr]

/-- Witness for the amended C4 at a concrete empty result. -/
theorem c4_witness :
    summarize_result { error := none, results := some [] } =
      "Query returned no results (an empty list: [])." :=
  c4_empty_result_sentinel { error := none, results := some [] } rfl rfl

/-- C7: for a query whose HTTP response has an error status the code does
NOT surface the response body.  `raise_for_status` attaches the response
to the raised `HTTPError`, but `e.response.text if e.response else str(e)`
tests the response's truthiness, which is `Response.ok` — false exactly on
error statuses — so the exception text is surfaced even though the
response and its body are available: at status 500 with body "boom" the
error carries the `HTTPError` rendering, is identical to what a different
body produces, and differs from the body text. -/
theorem c7_http_error_uses_exception_text :
    (execute_query (PostOutcome.resp ⟨500, "boom"⟩)).error =
      some ("API call failed: " ++ httpErrorStr ⟨500, "boom"⟩) ∧
    (execute_query (PostOutcome.resp ⟨500, "boom"⟩)).error =
      (execute_query (PostOutcome.resp ⟨500, "a completely different body"⟩)).error ∧
    (execute_query (PostOutcome.resp ⟨500, "boom"⟩)).error ≠
      some "API call failed: boom" ∧
    (execute_query (PostOutcome.exc "connection refused")).error =
      some "API call failed: connection refused" :=
  ⟨rfl, rfl, by decide, rfl⟩

/-- C9 counterexample: the assistant message stored for a raw oracle
response that is valid JSON but not in `json.dumps` canonical form differs
from the raw response — the re-serialization inserts the dumps separators,
so the transcript copy is not byte-identical to what the oracle produced. -/
theorem c9_counterexample :
    json_loads rawC9 = some (Json.obj [("final_analysis", Json.str "ok")]) ∧
    stored_assistant_content rawC9 = "\x7b\"final_analysis\": \"ok\"\x7d" ∧
    stored_assistant_content rawC9 ≠ rawC9 :=
  ⟨rfl, rfl, by decide⟩

/-- C9 as amended: the assistant message stored in the transcript is the
`json.dumps` re-serialization of the plan object parsed from the oracle's
raw response — semantically the same plan, but byte-identical to the raw
response only when that response is already in `json.dumps` canonical
form. -/
theorem c9_reserialized_not_raw (raw : String) (v : Json)
    (h : json_loads raw = some v) :
    stored_assistant_content raw = json_dumps v := by
  unfold stored_assistant_content get_ai_plan_value
  rw [h]
  rfl

/-- Witness for the amended C9 at a concrete raw response. -/
theorem c9_witness :
    stored_assistant_content rawC9 =
      json_dumps (Json.obj [("final_analysis", Json.str "ok")]) :=
  c9_reserialized_not_raw rawC9 (Json.obj [("final_analysis", Json.str "ok")]) rfl

/-- Characterization of `validContB` as the continuation-plan shape. -/
theorem validContB_iff (p : Plan) :
    validContB p = true ↔
      p.final_analysis = none ∧
        ∃ q s b e, p.query = some q ∧ q.sql = some s ∧ s ≠ "" ∧
          q.start = some b ∧ q.end_ = some e := by
  obtain ⟨t, hyp, q, f⟩ := p
  cases f with
  | some fa => simp [validContB]
  | none =>
      cases q with
      | none => simp [validContB]
      | some qi =>
          obtain ⟨s, b, e⟩ := qi
          cases s <;> cases b <;> cases e <;> simp [validContB]

/-- One continuation step of the loop: an iteration whose plan carries no
`final_analysis` but a query with non-empty `sql` and both bounds
dispatches the query and recurses on the remaining gas with the
observation appended. -/
theorem mainLoop_query_step (oracle : Nat → Plan)
    (svc : String → String → String → QueryResult) (gas calls queries : Nat)
    (disp : List (String × String × String)) (st : InvestigationState)
    (q : QueryInfo) (s b e : String)
    (hfa : (oracle calls).final_analysis = none)
    (hq : (oracle calls).query = some q)
    (hsql : q.sql = some s) (hs : s ≠ "")
    (hb : q.start = some b) (he : q.end_ = some e) :
    mainLoop oracle svc (gas + 1) calls queries disp st =
      mainLoop oracle svc gas (calls + 1) (queries + 1) (disp ++ [(s, b, e)])
        (add_system_observation (record_plan st (oracle calls))
          ("Query executed. Here is a summary of the result:\n" ++
            summarize_result (svc s b e))) := by
  simp [mainLoop, hfa, hq, hsql, hs, hb, he]

/-- Run of the loop over `k` valid continuation plans followed by a
concluding plan, from an arbitrary entry point of `mainLoop`: exactly `k`
queries execute and the concluding `final_analysis` is surfaced — through
the in-loop conclusion when gas remains, through the forced summarization
branch when the `k` continuations spend the whole gas. -/
theorem mainLoop_progress (oracle : Nat → Plan)
    (svc : String → String → String → QueryResult) (fa : String) :
    ∀ (k gas calls queries : Nat) (disp : List (String × String × String))
      (st : InvestigationState),
      k ≤ gas →
      (∀ i, i < k → validContB (oracle (calls + i)) = true) →
      (oracle (calls + k)).final_analysis = some fa →
      (mainLoop oracle svc gas calls queries disp st).output = fa ∧
      (mainLoop oracle svc gas calls queries disp st).queries = queries + k ∧
      (mainLoop oracle svc gas calls queries disp st).oracleCalls = calls + k + 1 ∧
      (mainLoop oracle svc gas calls queries disp st).kind =
        (if k = gas then OutcomeKind.forcedSummary else OutcomeKind.concluded) := by
  intro k
  induction k with
  | zero =>
      intro gas calls queries disp st hk hcont hfin
      rw [Nat.add_zero] at hfin
      cases gas with
      | zero => simp [mainLoop, hfin]
      | succ g => simp [mainLoop, hfin]
  | succ k ih =>
      intro gas calls queries disp st hk hcont hfin
      cases gas with
      | zero => omega
      | succ g =>
          have hv := hcont 0 (Nat.succ_pos k)
          rw [Nat.add_zero] at hv
          obtain ⟨hfa, q, s, b, e, hq, hsql, hs, hb, he⟩ := (validContB_iff _).mp hv
          have hcont' : ∀ i, i < k → validContB (oracle (calls + 1 + i)) = true := by
            intro i hi
            have h2 := hcont (i + 1) (by omega)
            rwa [show calls + (i + 1) = calls + 1 + i by omega] at h2
          have hfin' : (oracle (calls + 1 + k)).final_analysis = some fa := by
            rwa [show calls + (k + 1) = calls + 1 + k by omega] at hfin
          rw [mainLoop_query_step oracle svc g calls queries disp st q s b e
            hfa hq hsql hs hb he]
          obtain ⟨i1, i2, i3, i4⟩ := ih g (calls + 1) (queries + 1) (disp ++ [(s, b, e)])
            (add_system_observation (record_plan st (oracle calls))
              ("Query executed. Here is a summary of the result:\n" ++
                summarize_result (svc s b e)))
            (by omega) hcont' hfin'
          refine ⟨i1, ?_, ?_, ?_⟩
          · rw [i2]; omega
          · rw [i3]; omega
          · rw [i4]
            by_cases hkg : k = g
            · simp [hkg]
            · rw [if_neg hkg, if_neg (by omega)]

/-- C1: for every investigation in which the oracle returns `k` (with
`k ≤ max_turns = 7`) consecutive plans each containing a valid query
followed by one plan containing `final_analysis`, the turn loop performs
exactly `k` query executions and surfaces that `final_analysis` string to
the user verbatim — through the in-loop conclusion when `k < max_turns`,
and through the forced summarization path when `k = max_turns`. -/
theorem c1_continuations_then_conclusion (oracle : Nat → Plan)
    (svc : String → String → String → QueryResult) (user_input : String)
    (k : Nat) (fa : String) (hk : k ≤ 7)
    (hcont : ∀ i, i < k → validContB (oracle i) = true)
    (hfin : (oracle k).final_analysis = some fa) :
    (investigate oracle svc user_input).output = fa ∧
    (investigate oracle svc user_input).queries = k ∧
    (investigate oracle svc user_input).kind =
      (if k = 7 then OutcomeKind.forcedSummary else OutcomeKind.concluded) := by
  have h := mainLoop_progress oracle svc fa k 7 0 0 [] (initState user_input) hk
    (by simpa using hcont) (by simpa using hfin)
  have hinv : investigate oracle svc user_input =
      mainLoop oracle svc 7 0 0 [] (initState user_input) := rfl
  rw [hinv]
  exact ⟨h.1, by rw [h.2.1]; omega, h.2.2.2⟩

/-- Witness for C1 at a concrete input: one continuation plan, one
concluding plan — one query execution and the verbatim analysis. -/
theorem c1_witness :
    (investigate oracleOnceW svcEmpty "the cluster is unstable").output =
      "FailedMount events dominate; inspect the affected node." ∧
    (investigate oracleOnceW svcEmpty "the cluster is unstable").queries = 1 ∧
    (investigate oracleOnceW svcEmpty "the cluster is unstable").kind =
      OutcomeKind.concluded := by
  have h := c1_continuations_then_conclusion oracleOnceW svcEmpty "the cluster is unstable"
    1 "FailedMount events dominate; inspect the affected node." (by omega)
    (fun i hi => by
      have h0 : i = 0 := by omega
      subst h0
      rfl)
    rfl
  simpa using h

end Kabinet
